import Mathlib

/-!
Shallow embedding of `src/train.py` (SRCNN training script).

The script drives a per-epoch train/evaluate/checkpoint loop.  External
collaborators (the `srcnn_pytorch` package supplying the model and dataset,
and `torch.cuda.amp` supplying the gradient scaler) are not under `src/`;
where a claim depends on them they are modelled from the spec, and each such
definition carries a doc comment starting with `Modelled from the spec:`.
Scalar values that the script manipulates as Python floats are embedded as
exact rationals (losses, learning rates, loss scale) or reals (PSNR values,
which pass through `math.log10`).  Python's `ZeroDivisionError` on float
division by zero is embedded with `Except`.
-/

/-- A floating-point value as classified by the gradient-finiteness check:
either a finite value (embedded exactly as a rational) or one of the
non-finite values (infinity, NaN). -/
inductive FloatVal where
  | finite (q : ℚ)
  | inf
  | nan

def FloatVal.isFinite : FloatVal → Bool
  | FloatVal.finite _ => true
  | FloatVal.inf => false
  | FloatVal.nan => false

/-- The rational payload of a finite value (0 for non-finite; only read on
the all-finite path). -/
def FloatVal.val : FloatVal → ℚ
  | FloatVal.finite q => q
  | FloatVal.inf => 0
  | FloatVal.nan => 0

/-- Modelled from the spec: the dynamic loss-scaling state of
`torch.cuda.amp.GradScaler` (`train.py` line 106 creates it; the class
itself is library code, not under `src/`).  `scale` is the Loss Scale,
`growthTracker` counts consecutive successful steps. -/
structure GradScaler where
  scale : ℚ
  growthFactor : ℚ
  backoffFactor : ℚ
  growthInterval : ℕ
  growthTracker : ℕ

/-- Modelled from the spec: `amp.GradScaler()` default construction
(`train.py` line 106): initial scale 65536, growth factor 2, backoff
factor 1/2, growth interval 2000. -/
def GradScaler.init : GradScaler :=
  { scale := 65536, growthFactor := 2, backoffFactor := 1/2,
    growthInterval := 2000, growthTracker := 0 }

/-- Modelled from the spec: `scaler.update()` (`train.py` line 136).  If the
preceding step found a non-finite gradient the scale shrinks by the backoff
factor and the tracker resets; otherwise after `growthInterval` consecutive
clean steps the scale grows by the growth factor. -/
def GradScaler.update (s : GradScaler) (foundInf : Bool) : GradScaler :=
  if foundInf then
    { s with scale := s.scale * s.backoffFactor, growthTracker := 0 }
  else if s.growthTracker + 1 = s.growthInterval then
    { s with scale := s.scale * s.growthFactor, growthTracker := 0 }
  else
    { s with growthTracker := s.growthTracker + 1 }

/-- A sequence of `update` calls, one per training iteration, each tagged
with whether that iteration found a non-finite gradient. -/
def GradScaler.updateSeq (s : GradScaler) (founds : List Bool) : GradScaler :=
  founds.foldl GradScaler.update s

/-- Modelled from the spec: the SRCNN model (package `srcnn_pytorch`, not
under `src/`) exposes its trainable parameters as three named, disjoint
layer groups `conv1`, `conv2`, `conv3`; a parameter tensor is flattened to a
list of scalars. -/
structure SRCNNModel where
  conv1 : List ℚ
  conv2 : List ℚ
  conv3 : List ℚ

/-- Modelled from the spec: the model's full parameter list is the
concatenation of its three layer groups. -/
def SRCNNModel.parameters (m : SRCNNModel) : List ℚ :=
  m.conv1 ++ m.conv2 ++ m.conv3

/-- One optimizer parameter group: the parameters it owns and its learning
rate (`train.py` lines 96-99 build one per conv layer). -/
structure ParamGroup where
  params : List ℚ
  lr : ℚ

/-- The Adam optimizer as configured at `train.py` lines 94-101: a list of
parameter groups plus the constructor-level default learning rate. -/
structure Optimizer where
  groups : List ParamGroup
  defaultLr : ℚ

/-- `train.py` lines 94-101: three explicit groups (`conv1`, `conv2`,
`conv3`), each at the unscaled base rate `lr`, with the optimizer default
rate `lr * 0.1`. -/
def makeOptimizer (lr : ℚ) (m : SRCNNModel) : Optimizer :=
  { groups := [{ params := m.conv1, lr := lr },
               { params := m.conv2, lr := lr },
               { params := m.conv3, lr := lr }],
    defaultLr := lr * (1/10) }

/-- `model.state_dict()` as persisted by `torch.save` (`train.py` lines 156
and 159): the model parameters, which the optimizer groups alias; flattened
here as the concatenation of the group parameter lists. -/
def Optimizer.stateDict (opt : Optimizer) : List ℚ :=
  (opt.groups.map ParamGroup.params).flatten

/-- True when no gradient (one inner list per parameter group) is infinite
or NaN. -/
def gradsAllFinite (grads : List (List FloatVal)) : Bool :=
  grads.all (fun g => g.all FloatVal.isFinite)

/-- Modelled from the spec: the applied branch of the optimizer step — every
group takes a gradient step at its own configured learning rate (the
adaptive-moment arithmetic of Adam operates on irrational square roots and
is abstracted to the per-group-rate gradient step; the claims under
verification depend only on the skip/apply gating, the group learning
rates, and the loss-scale dynamics). -/
def ParamGroup.applyGrads (g : ParamGroup) (grads : List FloatVal) : ParamGroup :=
  { params := List.zipWith (fun p gr => p - g.lr * gr.val) g.params grads,
    lr := g.lr }

/-- Modelled from the spec: apply one gradient step to every parameter
group (gradient lists aligned group-by-group). -/
def applyStep (opt : Optimizer) (grads : List (List FloatVal)) : Optimizer :=
  { groups := List.zipWith ParamGroup.applyGrads opt.groups grads,
    defaultLr := opt.defaultLr }

/-- Modelled from the spec: `scaler.step(optimizer)` (`train.py` line 133).
The gradients (already unscaled) are checked for non-finite values; if any
is found the optimizer step is skipped entirely and `false` is returned,
otherwise the update is applied and `true` is returned. -/
def scalerStep (opt : Optimizer) (grads : List (List FloatVal)) : Optimizer × Bool :=
  if gradsAllFinite grads then (applyStep opt grads, true) else (opt, false)

/-- One training batch as the loop observes it: the computed loss value
(`loss.item()`) and the unscaled gradients the backward pass produced, one
inner list per parameter group.  Data and autograd are external, so both
are inputs to the embedded loop. -/
structure TrainBatch where
  loss : ℚ
  grads : List (List FloatVal)

/-- The state threaded through the training loop body (`train.py` lines
112-138): the optimizer (aliasing the model parameters), the scaler, and
the running `epoch_loss`. -/
structure IterState where
  opt : Optimizer
  scaler : GradScaler
  epochLoss : ℚ

/-- One iteration of the training loop body (`train.py` lines 112-138):
`scaler.step(optimizer)`, then `scaler.update()`, then
`epoch_loss += loss.item()` (unconditionally). -/
def runIteration (st : IterState) (b : TrainBatch) : IterState :=
  let res := scalerStep st.opt b.grads
  { opt := res.1,
    scaler := st.scaler.update (!res.2),
    epochLoss := st.epochLoss + b.loss }

/-- One training epoch (`train.py` lines 111-138): `epoch_loss = 0`, then
the iteration body folded over the epoch's batches. -/
def runTrainEpoch (opt : Optimizer) (scaler : GradScaler)
    (batches : List TrainBatch) : IterState :=
  batches.foldl runIteration { opt := opt, scaler := scaler, epochLoss := 0 }

/-- The mean training loss the epoch reports (`train.py` lines 140-141):
`epoch_loss / len(train_dataloader)`. -/
def reportedMeanLoss (opt : Optimizer) (scaler : GradScaler)
    (batches : List TrainBatch) : ℚ :=
  (runTrainEpoch opt scaler batches).epochLoss / (batches.length : ℚ)

/-- Python float division (`a / b`): raises `ZeroDivisionError` when the
divisor is zero, otherwise divides exactly. -/
def pyDiv (a b : ℚ) : Except String ℚ :=
  if b = 0 then Except.error "ZeroDivisionError: float division by zero"
  else Except.ok (a / b)

/-- `math.log10` on a positive rational, embedded as the exact real
base-10 logarithm. -/
noncomputable def pyLog10 (x : ℚ) : ℝ :=
  Real.logb 10 (x : ℝ)

/-- Per-batch PSNR as computed at `train.py` line 151:
`psnr = 10 * math.log10(1 / loss.item())` — the division happens first and
can raise `ZeroDivisionError`. -/
noncomputable def batchPsnr (l : ℚ) : Except String ℝ :=
  (pyDiv 1 l).map (fun r => 10 * pyLog10 r)

/-- The evaluation loop's accumulation (`train.py` lines 144-152): starting
from `avg_psnr = 0`, each validation batch's PSNR is computed and added;
a `ZeroDivisionError` aborts the run. -/
noncomputable def valAccum (acc : ℝ) : List ℚ → Except String ℝ
  | [] => Except.ok acc
  | l :: ls => (batchPsnr l).bind (fun p => valAccum (acc + p) ls)

/-- One full pass of the evaluation loop over the validation batch losses,
returning the accumulated PSNR sum (`avg_psnr` just before line 153). -/
noncomputable def runValEpoch (losses : List ℚ) : Except String ℝ :=
  valAccum 0 losses

/-- The per-epoch PSNR value the script reports (`train.py` line 153):
`avg_psnr / len(val_dataloader)`. -/
noncomputable def reportedAvgPsnr (losses : List ℚ) : Except String ℝ :=
  (runValEpoch losses).map (fun s => s / (losses.length : ℝ))

/-- The spec's formula for a per-batch PSNR with reference peak 1:
`10 * log10(1 / L)`.  Stated from the spec's words, to be compared with the
code-derived `batchPsnr`. -/
noncomputable def psnrSpec (l : ℚ) : ℝ :=
  10 * Real.logb 10 (1 / (l : ℝ))

/-- `train.py` line 103: `best_psnr = 0.` — the initial Best Metric. -/
def bestPsnrInit : ℚ := 0

/-- The checkpoint decision of `train.py` lines 157-158: given the current
best metric and the epoch's average metric, return the new best metric and
whether the best-checkpoint file is overwritten (`avg_psnr > best_psnr`,
strict). -/
def ckptDecision (best avg : ℚ) : ℚ × Bool :=
  if best < avg then (avg, true) else (best, false)

/-- The per-epoch overwrite flags produced by folding `ckptDecision` over a
sequence of per-epoch average metrics, starting from a given best. -/
def runBest (best : ℚ) : List ℚ → List Bool
  | [] => []
  | a :: rest => (ckptDecision best a).2 :: runBest (ckptDecision best a).1 rest

/-- The best-checkpoint overwrite flags of a whole training run, one per
epoch, starting from `best_psnr = 0.` (`train.py` lines 103, 157-160). -/
def bestFlags (avgs : List ℚ) : List Bool :=
  runBest bestPsnrInit avgs

/-- The value of `best_psnr` after a whole training run with the given
per-epoch average metrics. -/
def bestAfter (avgs : List ℚ) : ℚ :=
  avgs.foldl (fun b a => (ckptDecision b a).1) bestPsnrInit

/-- The parsed command-line configuration (`train.py` lines 29-53).
`argparse` checks only that each value parses at its declared type; no
range validation is performed on any of these fields. -/
structure Args where
  dataroot : String
  workers : Int
  epochs : Int
  batchSize : Int
  lr : ℚ
  scaleFactor : Int
  printFreq : Int
  cuda : Bool
  weights : String
  manualSeed : Option Int

/-- The argparse defaults (`train.py` lines 30-51). -/
def defaultArgs : Args :=
  { dataroot := "./data/DIV2K", workers := 0, epochs := 200, batchSize := 64,
    lr := 1/10000, scaleFactor := 4, printFreq := 5, cuda := false,
    weights := "", manualSeed := none }

/-- `range(args.epochs)` (`train.py` line 108): empty whenever `epochs` is
non-positive. -/
def epochIndices (n : Int) : List ℕ :=
  List.range n.toNat

/-- What the external dataloaders deliver for one epoch: the training
batches (loss and gradients each) and the per-batch validation losses. -/
structure EpochData where
  train : List TrainBatch
  val : List ℚ

/-- The external environment of one run: device availability, the seed
drawn when `--manualSeed` is absent (`train.py` line 62), the initial model
parameters, and the per-epoch data. -/
structure Env where
  cudaAvailable : Bool
  autoSeed : Int
  model0 : SRCNNModel
  data : ℕ → EpochData

/-- One line of console output. -/
inductive ConsoleEvent where
  | configDump (a : Args)
  | seedLine (n : Int)
  | cudaWarning
  | trainLine (epoch : ℕ) (meanLoss : ℚ)
  | psnrLine (avg : ℝ)

/-- The state threaded through the epoch loop (`train.py` lines 108-160):
optimizer (aliasing model parameters), scaler, `best_psnr`, and the
accumulated console lines and saved checkpoint files
(filename, parameters). -/
structure EpochsState where
  opt : Optimizer
  scaler : GradScaler
  best : ℝ
  console : List ConsoleEvent
  ckpts : List (String × List ℚ)
  bestCkpts : List (String × List ℚ)

/-- `f"weights/model_{epoch}.pth"` (`train.py` line 156). -/
def epochCkptName (e : ℕ) : String :=
  "weights/model_" ++ toString e ++ ".pth"

/-- `f"weights/srcnn_X{args.scale_factor}.pth"` (`train.py` line 160). -/
def bestCkptName (sf : Int) : String :=
  "weights/srcnn_X" ++ toString sf ++ ".pth"

/-- Console output produced before the epoch loop (`train.py` lines 54,
63, 69-71): the full parsed-args dump, the resolved random seed, and the
CUDA warning when a device is available but `--cuda` was not passed. -/
def startConsole (a : Args) (env : Env) : List ConsoleEvent :=
  [ConsoleEvent.configDump a,
   ConsoleEvent.seedLine (a.manualSeed.getD env.autoSeed)] ++
  (cond (env.cudaAvailable && !a.cuda) [ConsoleEvent.cudaWarning] [])

/-- The loop state before epoch 0 (`train.py` lines 94-106): optimizer
built from the freshly constructed model, default scaler,
`best_psnr = 0.`. -/
def initEpochsState (lr : ℚ) (m : SRCNNModel) : EpochsState :=
  { opt := makeOptimizer lr m, scaler := GradScaler.init,
    best := (bestPsnrInit : ℝ), console := [], ckpts := [], bestCkpts := [] }

/-- One epoch of the main loop (`train.py` lines 108-160): train, report
mean loss, evaluate, report average PSNR, save the per-epoch checkpoint
unconditionally, then overwrite the best checkpoint when
`avg_psnr > best_psnr`. -/
noncomputable def runOneEpoch (sf : Int) (e : ℕ) (d : EpochData)
    (st : EpochsState) : Except String EpochsState :=
  let ts := runTrainEpoch st.opt st.scaler d.train
  match runValEpoch d.val with
  | Except.error msg => Except.error msg
  | Except.ok psnrSum =>
      let avg := psnrSum / (d.val.length : ℝ)
      let console1 := st.console ++
        [ConsoleEvent.trainLine e (ts.epochLoss / (d.train.length : ℚ)),
         ConsoleEvent.psnrLine avg]
      let ckpts1 := st.ckpts ++ [(epochCkptName e, ts.opt.stateDict)]
      if st.best < avg then
        Except.ok { opt := ts.opt, scaler := ts.scaler, best := avg,
                    console := console1, ckpts := ckpts1,
                    bestCkpts := st.bestCkpts ++
                      [(bestCkptName sf, ts.opt.stateDict)] }
      else
        Except.ok { opt := ts.opt, scaler := ts.scaler, best := st.best,
                    console := console1, ckpts := ckpts1,
                    bestCkpts := st.bestCkpts }

/-- The epoch loop over the epoch indices of `range(args.epochs)`. -/
noncomputable def runEpochsLoop (sf : Int) (data : ℕ → EpochData) :
    List ℕ → EpochsState → Except String EpochsState
  | [], st => Except.ok st
  | e :: rest, st =>
      match runOneEpoch sf e (data e) st with
      | Except.error msg => Except.error msg
      | Except.ok st2 => runEpochsLoop sf data rest st2

/-- The observable outcome of a whole run: console lines in order, the
per-epoch checkpoint files written, and the best-checkpoint files
written (in order, with the parameters each one persisted). -/
structure RunResult where
  console : List ConsoleEvent
  ckpts : List (String × List ℚ)
  bestCkpts : List (String × List ℚ)

/-- The whole script (`train.py` lines 29-160) given a parsed configuration
and the external environment: startup console output, then the epoch
loop. -/
noncomputable def runProgram (a : Args) (env : Env) : Except String RunResult :=
  (runEpochsLoop a.scaleFactor env.data (epochIndices a.epochs)
      (initEpochsState a.lr env.model0)).map
    (fun st => { console := startConsole a env ++ st.console,
                 ckpts := st.ckpts, bestCkpts := st.bestCkpts })

/-- Drop the startup args dump from a console transcript, keeping every
other line. -/
def stripConfig (l : List ConsoleEvent) : List ConsoleEvent :=
  l.filter (fun ev =>
    match ev with
    | ConsoleEvent.configDump _ => false
    | _ => true)

/-- Everything a run produces apart from the startup args dump: remaining
console lines, per-epoch checkpoints, best checkpoints. -/
noncomputable def runObservables (a : Args) (env : Env) :
    Except String (List ConsoleEvent × List (String × List ℚ) × List (String × List ℚ)) :=
  (runProgram a env).map
    (fun r => (stripConfig r.console, r.ckpts, r.bestCkpts))

/-- A trivial environment: no CUDA device, drawn seed 1, empty model,
empty data. -/
def env0 : Env :=
  { cudaAvailable := false, autoSeed := 1,
    model0 := { conv1 := [], conv2 := [], conv3 := [] },
    data := fun _ => { train := [], val := [] } }

/-- An environment with one single-parameter model, one training batch
(finite zero gradient) and one validation batch of loss 1 per epoch. -/
def env1 : Env :=
  { cudaAvailable := false, autoSeed := 1,
    model0 := { conv1 := [0], conv2 := [], conv3 := [] },
    data := fun _ => { train := [{ loss := 1/2,
                                   grads := [[FloatVal.finite 0], [], []] }],
                       val := [1] } }

/-- The default configuration with `--epochs -1`. -/
def argsNegEpochs : Args :=
  { defaultArgs with epochs := -1 }

/-- The default configuration with `--scale-factor -3 --epochs 1`. -/
def argsBadScale : Args :=
  { defaultArgs with scaleFactor := -3, epochs := 1 }

/-- The default configuration with `--epochs 0`. -/
def argsEp0 : Args :=
  { defaultArgs with epochs := 0 }

/-- The default configuration with `--epochs 0 --print-freq 6`. -/
def argsEp0P6 : Args :=
  { defaultArgs with epochs := 0, printFreq := 6 }

/-- A concrete mid-training iteration state (freshly initialized scaler). -/
def c3State : IterState :=
  { opt := makeOptimizer (1/10000) { conv1 := [1], conv2 := [2], conv3 := [3] },
    scaler := GradScaler.init, epochLoss := 37/100 }

/-- A concrete training batch whose backward pass produced a NaN gradient. -/
def c3Batch : TrainBatch :=
  { loss := 1/2, grads := [[FloatVal.nan], [], []] }

/-- The four-batch training epoch of the spec's scenario: per-batch losses
0.10, 0.08, 0.06, 0.04, all gradients finite. -/
def c5Batches : List TrainBatch :=
  [{ loss := 1/10, grads := [] }, { loss := 2/25, grads := [] },
   { loss := 3/50, grads := [] }, { loss := 1/25, grads := [] }]

lemma gradScaler_update_growthFactor (s : GradScaler) (b : Bool) :
    (s.update b).growthFactor = s.growthFactor := by
  unfold GradScaler.update
  split_ifs <;> rfl

lemma gradScaler_update_backoffFactor (s : GradScaler) (b : Bool) :
    (s.update b).backoffFactor = s.backoffFactor := by
  unfold GradScaler.update
  split_ifs <;> rfl

lemma gradScaler_update_scale_pos (s : GradScaler) (b : Bool)
    (hs : 0 < s.scale) (hg : 0 < s.growthFactor) (hb : 0 < s.backoffFactor) :
    0 < (s.update b).scale := by
  unfold GradScaler.update
  split_ifs <;> simp only <;> positivity

lemma updateSeq_backoffFactor (founds : List Bool) :
    ∀ s : GradScaler, (s.updateSeq founds).backoffFactor = s.backoffFactor := by
  induction founds with
  | nil => intro s; rfl
  | cons f rest ih =>
      intro s
      show ((s.update f).updateSeq rest).backoffFactor = s.backoffFactor
      rw [ih (s.update f), gradScaler_update_backoffFactor]

lemma updateSeq_scale_pos (founds : List Bool) :
    ∀ s : GradScaler, 0 < s.scale → 0 < s.growthFactor → 0 < s.backoffFactor →
      0 < (s.updateSeq founds).scale := by
  induction founds with
  | nil => intro s hs _ _; exact hs
  | cons f rest ih =>
      intro s hs hg hb
      show 0 < ((s.update f).updateSeq rest).scale
      exact ih (s.update f) (gradScaler_update_scale_pos s f hs hg hb)
        (by rw [gradScaler_update_growthFactor]; exact hg)
        (by rw [gradScaler_update_backoffFactor]; exact hb)

/-- C4: starting from `amp.GradScaler()` at `train.py` line 106, the loss
scale stays strictly positive after any finite number of `scaler.update`
calls, whatever sequence of found-inf / clean outcomes the training
iterations produce. -/
theorem lossScale_always_positive (founds : List Bool) :
    0 < (GradScaler.init.updateSeq founds).scale :=
  updateSeq_scale_pos founds GradScaler.init (by norm_num [GradScaler.init])
    (by norm_num [GradScaler.init]) (by norm_num [GradScaler.init])

lemma gradsAllFinite_eq_false (grads : List (List FloatVal))
    (hg : ∃ gl ∈ grads, ∃ g ∈ gl, g.isFinite = false) :
    gradsAllFinite grads = false := by
  obtain ⟨gl, hgl, g, hgmem, hgf⟩ := hg
  rw [gradsAllFinite, List.all_eq_false]
  refine ⟨gl, hgl, ?_⟩
  rw [List.all_eq_true]
  push_neg
  exact ⟨g, hgmem, by simp [hgf]⟩

/-- C3: in a training iteration whose gradients contain a non-finite value
(infinity or NaN), reached with the scaler state produced by any prefix of
the run, the optimizer step is skipped: the optimizer (hence every model
parameter) is unchanged, the loss scale strictly decreases at the
`scaler.update` call, and the batch's loss is still added to `epoch_loss`
(`train.py` lines 126-138). -/
theorem skipped_step_frame (st : IterState) (b : TrainBatch)
    (hg : ∃ gl ∈ b.grads, ∃ g ∈ gl, g.isFinite = false)
    (hreach : ∃ founds, st.scaler = GradScaler.init.updateSeq founds) :
    (runIteration st b).opt = st.opt ∧
    (runIteration st b).scaler.scale < st.scaler.scale ∧
    (runIteration st b).epochLoss = st.epochLoss + b.loss := by
  obtain ⟨founds, hsc⟩ := hreach
  have hpos : 0 < st.scaler.scale := by
    rw [hsc]; exact lossScale_always_positive founds
  have hback : st.scaler.backoffFactor = 1/2 := by
    rw [hsc, updateSeq_backoffFactor]; rfl
  have hfalse : gradsAllFinite b.grads = false := gradsAllFinite_eq_false b.grads hg
  refine ⟨?_, ?_, rfl⟩
  · simp [runIteration, scalerStep, hfalse]
  · show (st.scaler.update (!(scalerStep st.opt b.grads).2)).scale < st.scaler.scale
    rw [scalerStep, if_neg (by rw [hfalse]; exact Bool.false_ne_true)]
    show (st.scaler.update true).scale < st.scaler.scale
    rw [GradScaler.update, if_pos rfl]
    show st.scaler.scale * st.scaler.backoffFactor < st.scaler.scale
    rw [hback]
    exact mul_lt_of_lt_one_right hpos (by norm_num)

/-- Witness for C3 at a concrete state and batch: a NaN gradient with the
freshly initialized scaler. -/
theorem skipped_step_frame_witness :
    (∃ gl ∈ c3Batch.grads, ∃ g ∈ gl, g.isFinite = false) ∧
    (runIteration c3State c3Batch).opt = c3State.opt ∧
    (runIteration c3State c3Batch).scaler.scale < c3State.scaler.scale ∧
    (runIteration c3State c3Batch).epochLoss = c3State.epochLoss + c3Batch.loss := by
  have h := skipped_step_frame c3State c3Batch (by decide) ⟨[], rfl⟩
  exact ⟨by decide, h.1, h.2.1, h.2.2⟩

lemma trainEpoch_loss_sum (batches : List TrainBatch) :
    ∀ st : IterState, (batches.foldl runIteration st).epochLoss =
      st.epochLoss + (batches.map TrainBatch.loss).sum := by
  induction batches with
  | nil => intro st; simp
  | cons b rest ih =>
      intro st
      rw [List.foldl_cons, ih (runIteration st b), List.map_cons, List.sum_cons]
      show st.epochLoss + b.loss + _ = _
      ring

/-- C5: the reported mean training loss (`train.py` lines 140-141) equals
the sum of every per-batch loss of the epoch — skipped optimizer steps
included, since `epoch_loss += loss.item()` is unconditional — divided by
the number of training batches. -/
theorem mean_training_loss (opt : Optimizer) (scaler : GradScaler)
    (batches : List TrainBatch) (h : 0 < batches.length) :
    reportedMeanLoss opt scaler batches =
      (batches.map TrainBatch.loss).sum / (batches.length : ℚ) := by
  unfold reportedMeanLoss runTrainEpoch
  rw [trainEpoch_loss_sum]
  norm_num

/-- Witness for C5 at the spec's scenario: four batches with losses
0.10, 0.08, 0.06, 0.04 give reported mean 0.07. -/
theorem mean_training_loss_witness :
    0 < c5Batches.length ∧
    reportedMeanLoss (makeOptimizer (1/10000)
        { conv1 := [], conv2 := [], conv3 := [] })
      GradScaler.init c5Batches = 7/100 :=
  ⟨by decide,
   (mean_training_loss _ _ c5Batches (by decide)).trans (by norm_num [c5Batches])⟩

/-- C7: the optimizer of `train.py` lines 94-101 takes the scaled rate
`lr * 0.1` as its constructor default while each of the three parameter
groups (`conv1`, `conv2`, `conv3`) carries the unscaled base rate, and the
three groups together cover every model parameter exactly once (their
concatenation is the model's parameter list, with matching total length). -/
theorem optimizer_group_config (lr : ℚ) (m : SRCNNModel) :
    (makeOptimizer lr m).defaultLr = lr * (1/10) ∧
    (makeOptimizer lr m).groups.map ParamGroup.lr = [lr, lr, lr] ∧
    ((makeOptimizer lr m).groups.map ParamGroup.params).flatten = m.parameters ∧
    ((makeOptimizer lr m).groups.map (fun g => g.params.length)).sum =
      m.parameters.length := by
  refine ⟨rfl, rfl, ?_, ?_⟩ <;> simp [makeOptimizer, SRCNNModel.parameters]

lemma batchPsnr_eq_spec (l : ℚ) (hl : l ≠ 0) :
    batchPsnr l = Except.ok (psnrSpec l) := by
  rw [batchPsnr, pyDiv, if_neg hl]
  have hcast : ((1 / l : ℚ) : ℝ) = 1 / (l : ℝ) := by push_cast; ring
  simp only [Except.map, pyLog10, psnrSpec, hcast]

lemma valAccum_ok (losses : List ℚ) :
    ∀ acc : ℝ, (∀ l ∈ losses, l ≠ 0) →
      valAccum acc losses = Except.ok (acc + (losses.map psnrSpec).sum) := by
  induction losses with
  | nil => intro acc _; simp [valAccum]
  | cons l ls ih =>
      intro acc h
      have hl : l ≠ 0 := h l (List.mem_cons_self l ls)
      rw [valAccum, batchPsnr_eq_spec l hl]
      simp only [Except.bind]
      rw [ih (acc + psnrSpec l) (fun x hx => h x (List.mem_cons_of_mem l hx))]
      rw [List.map_cons, List.sum_cons]
      congr 1
      ring

lemma psnrSpec_forty : psnrSpec (1/10000) = 40 := by
  rw [psnrSpec]
  have h1 : (1 : ℝ) / (((1 : ℚ)/10000 : ℚ) : ℝ) = 10000 := by push_cast; norm_num
  rw [h1]
  have h2 : (10000 : ℝ) = (10 : ℝ) ^ (4 : ℕ) := by norm_num
  rw [h2, Real.logb_pow, Real.logb_self_eq_one (by norm_num)]
  norm_num

/-- C6: for positive validation losses, the per-batch PSNR computed at
`train.py` line 151 equals the spec formula `10 * log10(1 / L)` with peak
fixed at 1 — in particular loss 0.0001 gives exactly 40 dB — and the value
reported at line 153 is the arithmetic mean of the per-batch PSNRs. -/
theorem psnr_per_batch_and_mean (l : ℚ) (losses : List ℚ)
    (hl : 0 < l) (h : ∀ x ∈ losses, 0 < x) :
    batchPsnr l = Except.ok (psnrSpec l) ∧
    batchPsnr (1/10000) = Except.ok 40 ∧
    reportedAvgPsnr losses =
      Except.ok ((losses.map psnrSpec).sum / (losses.length : ℝ)) := by
  refine ⟨batchPsnr_eq_spec l hl.ne', ?_, ?_⟩
  · rw [batchPsnr_eq_spec (1/10000) (by norm_num), psnrSpec_forty]
  · rw [reportedAvgPsnr, runValEpoch,
        valAccum_ok losses 0 (fun x hx => (h x hx).ne')]
    simp [Except.map]

/-- Witness for C6 at the spec's scenario: a single validation batch with
loss 0.0001 has per-batch PSNR 40 and reported mean 40. -/
theorem psnr_per_batch_and_mean_witness :
    (0 < (1/10000 : ℚ)) ∧ (∀ x ∈ [(1/10000 : ℚ)], 0 < x) ∧
    batchPsnr (1/10000) = Except.ok 40 ∧
    reportedAvgPsnr [(1/10000 : ℚ)] =
      Except.ok (([(1/10000 : ℚ)].map psnrSpec).sum / (([(1/10000 : ℚ)].length : ℕ) : ℝ)) := by
  have h := psnr_per_batch_and_mean (1/10000) [(1/10000 : ℚ)] (by norm_num)
    (by intro x hx; rw [List.mem_singleton] at hx; rw [hx]; norm_num)
  exact ⟨by norm_num, by intro x hx; rw [List.mem_singleton] at hx; rw [hx]; norm_num,
    h.2.1, h.2.2⟩

lemma valAccum_zero_loss (losses : List ℚ) :
    ∀ acc : ℝ, (0 : ℚ) ∈ losses →
      valAccum acc losses =
        Except.error "ZeroDivisionError: float division by zero" := by
  induction losses with
  | nil => intro acc h; exact absurd h (List.not_mem_nil 0)
  | cons l ls ih =>
      intro acc h
      by_cases hl : l = 0
      · rw [valAccum, batchPsnr, pyDiv, if_pos hl]
        rfl
      · have hmem : (0 : ℚ) ∈ ls := by
          rcases List.mem_cons.mp h with h0 | h0
          · exact absurd h0.symm hl
          · exact h0
        rw [valAccum, batchPsnr_eq_spec l hl]
        simp only [Except.bind]
        exact ih (acc + psnrSpec l) hmem

/-- C9: a validation batch whose mean-squared loss is exactly zero makes
`1 / loss.item()` at `train.py` line 151 raise `ZeroDivisionError`: the
evaluation loop aborts with that error instead of reporting an infinite
PSNR, so a perfect reconstruction is fatal to the run. -/
theorem zero_loss_aborts_eval (losses : List ℚ) (h : (0 : ℚ) ∈ losses) :
    runValEpoch losses =
      Except.error "ZeroDivisionError: float division by zero" ∧
    reportedAvgPsnr losses =
      Except.error "ZeroDivisionError: float division by zero" := by
  have hrun : runValEpoch losses =
      Except.error "ZeroDivisionError: float division by zero" :=
    valAccum_zero_loss losses 0 h
  exact ⟨hrun, by rw [reportedAvgPsnr, hrun]; rfl⟩

/-- Witness for C9: a validation epoch whose second batch has loss zero
aborts with `ZeroDivisionError`. -/
theorem zero_loss_aborts_eval_witness :
    (0 : ℚ) ∈ [(1 : ℚ), 0] ∧
    runValEpoch [(1 : ℚ), 0] =
      Except.error "ZeroDivisionError: float division by zero" ∧
    reportedAvgPsnr [(1 : ℚ), 0] =
      Except.error "ZeroDivisionError: float division by zero" := by
  have h := zero_loss_aborts_eval [(1 : ℚ), 0] (by decide)
  exact ⟨by decide, h.1, h.2⟩

lemma ckptDecision_fst (b a : ℚ) : (ckptDecision b a).1 = max b a := by
  rw [ckptDecision]
  rcases lt_or_le b a with h | h
  · rw [if_pos h, max_eq_right h.le]
  · rw [if_neg (not_lt.mpr h), max_eq_left h]

lemma ckptDecision_snd (b a : ℚ) : (ckptDecision b a).2 = decide (b < a) := by
  rw [ckptDecision]
  by_cases h : b < a
  · rw [if_pos h]; simp [h]
  · rw [if_neg h]; simp [h]

lemma foldl_max_lt_iff (l : List ℚ) :
    ∀ b x : ℚ, List.foldl max b l < x ↔ b < x ∧ ∀ a ∈ l, a < x := by
  induction l with
  | nil => intro b x; simp
  | cons a t ih =>
      intro b x
      rw [List.foldl_cons, ih (max b a) x, max_lt_iff]
      constructor
      · rintro ⟨⟨hb, ha⟩, ht⟩
        refine ⟨hb, fun c hc => ?_⟩
        rcases List.mem_cons.mp hc with h | h
        · rw [h]; exact ha
        · exact ht c h
      · rintro ⟨hb, hall⟩
        exact ⟨⟨hb, hall a (List.mem_cons_self a t)⟩,
          fun c hc => hall c (List.mem_cons_of_mem a hc)⟩

lemma runBest_getD (l : List ℚ) :
    ∀ (b : ℚ) (k : ℕ), k < l.length →
      (runBest b l).getD k false =
        decide (List.foldl max b (l.take k) < l.getD k 0) := by
  induction l with
  | nil => intro b k hk; exact absurd hk (by simp)
  | cons a t ih =>
      intro b k hk
      cases k with
      | zero =>
          simp only [runBest, List.getD_cons_zero, List.take_zero,
            List.foldl_nil, ckptDecision_snd]
      | succ k =>
          have hk' : k < t.length := by simpa using hk
          simp only [runBest, List.getD_cons_succ, List.take_succ_cons,
            List.foldl_cons]
          rw [ckptDecision_fst, ih (max b a) k hk']

lemma forall_mem_take (P : ℚ → Prop) (l : List ℚ) :
    ∀ k : ℕ, k ≤ l.length →
      ((∀ a ∈ l.take k, P a) ↔ ∀ j, j < k → P (l.getD j 0)) := by
  induction l with
  | nil =>
      intro k hk
      have hz : k = 0 := Nat.le_zero.mp hk
      subst hz
      simp
  | cons a t ih =>
      intro k hk
      cases k with
      | zero => simp
      | succ k =>
          have hk' : k ≤ t.length := by simpa using hk
          rw [List.take_succ_cons, List.forall_mem_cons, ih k hk']
          constructor
          · rintro ⟨ha, hrest⟩ j hj
            cases j with
            | zero => rw [List.getD_cons_zero]; exact ha
            | succ j =>
                rw [List.getD_cons_succ]
                exact hrest j (Nat.succ_lt_succ_iff.mp hj)
          · intro hall
            refine ⟨?_, fun j hj => ?_⟩
            · have := hall 0 (Nat.succ_pos k)
              rwa [List.getD_cons_zero] at this
            · have := hall (j + 1) (Nat.succ_lt_succ hj)
              rwa [List.getD_cons_succ] at this

/-- C1 (amended): with `best_psnr` starting at 0 (`train.py` line 103), the
best-checkpoint file is overwritten after epoch `k` iff that epoch's mean
validation metric is strictly positive and strictly greater than every
previous epoch's mean metric.  The bare "strictly greater than all previous
epochs" condition of the original claim is a weaker requirement: it holds
vacuously at the first epoch, where the code still requires the metric to
exceed the initial 0. -/
theorem best_overwrite_characterization (avgs : List ℚ) (k : ℕ)
    (hk : k < avgs.length) :
    (bestFlags avgs).getD k false = true ↔
      (0 < avgs.getD k 0 ∧ ∀ j, j < k → avgs.getD j 0 < avgs.getD k 0) := by
  rw [bestFlags, bestPsnrInit, runBest_getD avgs 0 k hk, decide_eq_true_eq,
    foldl_max_lt_iff (avgs.take k) 0 (avgs.getD k 0),
    forall_mem_take (fun a => a < avgs.getD k 0) avgs k (le_of_lt hk)]

/-- Counterexample to C1 as stated: a first epoch with mean validation
metric -1 (per-batch loss above 1 makes the PSNR negative) is strictly
greater than all (zero) previous epochs' metrics, yet the code does not
overwrite the best checkpoint because -1 does not exceed the initial
`best_psnr = 0.`. -/
theorem best_overwrite_iff_counterexample :
    ¬ (((bestFlags [(-1 : ℚ)]).getD 0 false = true) ↔
        (∀ j, j < 0 → [(-1 : ℚ)].getD j 0 < [(-1 : ℚ)].getD 0 0)) := by
  decide

/-- Witness for C1 (amended) at the spec's scenario metrics 28.00, 27.50,
29.10 taken at the third epoch. -/
theorem best_overwrite_characterization_witness :
    2 < ([28, 55/2, 291/10] : List ℚ).length ∧
    ((bestFlags [28, 55/2, 291/10]).getD 2 false = true ↔
      (0 < ([28, 55/2, 291/10] : List ℚ).getD 2 0 ∧
       ∀ j, j < 2 →
         ([28, 55/2, 291/10] : List ℚ).getD j 0 <
           ([28, 55/2, 291/10] : List ℚ).getD 2 0)) :=
  ⟨by decide, best_overwrite_characterization [28, 55/2, 291/10] 2 (by decide)⟩

/-- Counterexample to C2 as stated: `best_psnr` is initialized to 0, not to
the worst possible metric value, so a first epoch whose mean metric is -2
does not trigger a best-checkpoint write. -/
theorem best_metric_init_counterexample :
    ¬ ((bestFlags [(-2 : ℚ)]).getD 0 false = true) := by
  decide

/-- C2 (amended): `best_psnr` starts at 0 (`train.py` line 103), which is
not a lower bound of the metric; the first epoch triggers a best write iff
its mean metric strictly exceeds 0, and thereafter the running best equals
the maximum of 0 and all processed epoch metrics — i.e. it is updated only
when an epoch's mean metric strictly exceeds it. -/
theorem best_metric_update_rule :
    bestPsnrInit = 0 ∧
    (∀ (a : ℚ) (rest : List ℚ),
      (bestFlags (a :: rest)).getD 0 false = decide (bestPsnrInit < a)) ∧
    (∀ avgs : List ℚ, bestAfter avgs = List.foldl max bestPsnrInit avgs) := by
  refine ⟨rfl, ?_, ?_⟩
  · intro a rest
    simp only [bestFlags, runBest, List.getD_cons_zero, ckptDecision_snd]
  · intro avgs
    rw [bestAfter]
    have hfold : ∀ (l : List ℚ) (b : ℚ),
        l.foldl (fun b a => (ckptDecision b a).1) b = l.foldl max b := by
      intro l
      induction l with
      | nil => intro b; rfl
      | cons a t ih =>
          intro b
          rw [List.foldl_cons, List.foldl_cons, ckptDecision_fst, ih]
    exact hfold avgs bestPsnrInit

/-- C8 (code behavior at the failing inputs): the script performs no
validation of its configuration.  With `--epochs -1` the run parses,
executes zero epochs and terminates normally — nothing is rejected; with
`--scale-factor -3 --epochs 1` training work proceeds (a batch is consumed
and the per-epoch checkpoint `weights/model_0.pth` is written), and the
invalid scale factor flows unchecked into the best-checkpoint filename. -/
theorem invalid_config_not_rejected :
    runProgram argsNegEpochs env0 =
      Except.ok { console := [ConsoleEvent.configDump argsNegEpochs,
                              ConsoleEvent.seedLine 1],
                  ckpts := [], bestCkpts := [] } ∧
    (runProgram argsBadScale env1).map (fun r => r.ckpts.map Prod.fst) =
      Except.ok ["weights/model_0.pth"] ∧
    bestCkptName (-3) = "weights/srcnn_X-3.pth" := by
  refine ⟨rfl, ?_, rfl⟩
  have hval : runValEpoch [1] = Except.ok 0 := by
    have h0 : runValEpoch [1] = Except.ok ((0:ℝ) + 10 * pyLog10 ((1:ℚ)/1)) := rfl
    rw [h0]
    norm_num [pyLog10]
  have hidx : epochIndices ((1 : Int)) = [0] := rfl
  simp only [runProgram, argsBadScale, defaultArgs, hidx]
  simp only [runEpochsLoop, runOneEpoch, env1, hval]
  have hb0 : (initEpochsState (1/10000)
      { conv1 := [0], conv2 := [], conv3 := [] }).best = 0 := by
    simp [initEpochsState, bestPsnrInit]
  rw [hb0]
  norm_num
  rfl

/-- Counterexample to C10 as stated: two runs identical in every respect
except `--print-freq` (5 versus 6) do not produce identical console
reporting, because `print(args)` at `train.py` line 54 echoes the parsed
configuration, `print_freq` included, at startup. -/
theorem printFreq_console_counterexample :
    runProgram argsEp0 env0 ≠ runProgram argsEp0P6 env0 := by
  intro hcontra
  have h1 : runProgram argsEp0 env0 =
      Except.ok { console := [ConsoleEvent.configDump argsEp0,
                              ConsoleEvent.seedLine 1],
                  ckpts := [], bestCkpts := [] } := rfl
  have h2 : runProgram argsEp0P6 env0 =
      Except.ok { console := [ConsoleEvent.configDump argsEp0P6,
                              ConsoleEvent.seedLine 1],
                  ckpts := [], bestCkpts := [] } := rfl
  rw [h1, h2] at hcontra
  simp [argsEp0, argsEp0P6, defaultArgs] at hcontra

/-- C10 (amended): `--print-freq` is parsed but never read by the training
or evaluation loop, so two runs identical except for its value produce
identical parameter updates, identical checkpoint files, and identical
console reporting apart from the startup dump of the parsed configuration
(which echoes the differing value). -/
theorem printFreq_otherwise_unobservable (a : Args) (p : Int) (env : Env) :
    runObservables { a with printFreq := p } env = runObservables a env := by
  have hred : runProgram { a with printFreq := p } env =
      (runEpochsLoop a.scaleFactor env.data (epochIndices a.epochs)
          (initEpochsState a.lr env.model0)).map
        (fun st =>
          { console := startConsole { a with printFreq := p } env ++ st.console,
            ckpts := st.ckpts, bestCkpts := st.bestCkpts }) := rfl
  rw [runObservables, runObservables, hred, runProgram]
  cases hres : runEpochsLoop a.scaleFactor env.data (epochIndices a.epochs)
      (initEpochsState a.lr env.model0) with
  | error msg => rfl
  | ok st =>
      simp only [Except.map]
      congr 1

/-- Witness for C4 at a concrete outcome sequence (clean, found-inf,
clean). -/
theorem lossScale_always_positive_witness :
    0 < (GradScaler.init.updateSeq [false, true, false]).scale :=
  lossScale_always_positive [false, true, false]

/-- Witness for C7 at the default base rate 0.0001 and a three-parameter
model. -/
theorem optimizer_group_config_witness :
    (makeOptimizer (1/10000)
        { conv1 := [1], conv2 := [2], conv3 := [3] }).defaultLr =
      (1/10000) * (1/10) ∧
    (makeOptimizer (1/10000)
        { conv1 := [1], conv2 := [2], conv3 := [3] }).groups.map ParamGroup.lr =
      [1/10000, 1/10000, 1/10000] ∧
    ((makeOptimizer (1/10000)
        { conv1 := [1], conv2 := [2], conv3 := [3] }).groups.map
          ParamGroup.params).flatten =
      SRCNNModel.parameters { conv1 := [1], conv2 := [2], conv3 := [3] } ∧
    ((makeOptimizer (1/10000)
        { conv1 := [1], conv2 := [2], conv3 := [3] }).groups.map
          (fun g => g.params.length)).sum =
      (SRCNNModel.parameters { conv1 := [1], conv2 := [2], conv3 := [3] }).length :=
  optimizer_group_config (1/10000) { conv1 := [1], conv2 := [2], conv3 := [3] }

/-- Witness for C10 (amended) at a concrete configuration pair differing
only in `--print-freq`. -/
theorem printFreq_otherwise_unobservable_witness :
    runObservables { argsEp0 with printFreq := 9 } env0 =
      runObservables argsEp0 env0 :=
  printFreq_otherwise_unobservable argsEp0 9 env0
